import Mathlib

/-!
Verification development for a browser voxel sandbox (three.js Minecraft-style
clone). The world model and terrain generation are embedded from src/world.js;
the avatar physics, collision resolution, movement and inventory operations from
the Player class (src/player.js); block placement from InputHandler
(src/input.js). All machine reals are embedded as exact rationals; grid
positions are integer triples. Definitions mirror the source line by line.
-/

/-- Closed enumeration of block types (world.js, blockTypes). -/
inductive BlockType
  | grass | dirt | stone | wood | leaves
deriving DecidableEq, Repr

/-- Integer grid position of a block (world.js stores rounded positions). -/
abbrev GridPos := ℤ × ℤ × ℤ

/-- A placed block: grid position plus type tag (world.js, addBlock mesh with
userData.type). -/
abbrev WBlock := GridPos × BlockType

/-- Player width (player.js, this.width = 0.6). -/
def playerWidth : ℚ := 3/5

/-- Player height (player.js, this.height = 1.2). -/
def playerHeight : ℚ := 6/5

/-- Fixed physics timestep (player.js update, fixedDelta = 1/60). -/
def fixedDelta : ℚ := 1/60

/-- Base gravity (player.js, this.baseGravity = 25). -/
def baseGravity : ℚ := 25

/-- Gravity cap (player.js, this.maxGravity = 35). -/
def maxGravity : ℚ := 35

/-- Gravity ramp rate (player.js, this.gravityAcceleration = 14). -/
def gravityAcceleration : ℚ := 14

/-- Walk speed (player.js, this.walkSpeed = 7). -/
def walkSpeed : ℚ := 7

/-- Sprint speed (player.js, this.sprintSpeed = 9.1). -/
def sprintSpeed : ℚ := 91/10

/-- Jump impulse (player.js, this.jumpForce = 8.5). -/
def jumpForce : ℚ := 17/2

/-- Math.abs on exact rationals. -/
def jsAbs (x : ℚ) : ℚ := if x < 0 then -x else x

/-- Math.min on exact rationals. -/
def jsMin (a b : ℚ) : ℚ := if a ≤ b then a else b

/-- Math.max on exact rationals. -/
def jsMax (a b : ℚ) : ℚ := if a ≤ b then b else a

/-- Axis-aligned box, mirroring THREE.Box3 as a pair of corner points. -/
structure Box where
  minX : ℚ
  minY : ℚ
  minZ : ℚ
  maxX : ℚ
  maxY : ℚ
  maxZ : ℚ
deriving DecidableEq, Repr

/-- Box3.setFromCenterAndSize for the avatar box of extents
(width, height, width) centered at the given position. -/
def playerBoxAt (px py pz : ℚ) : Box :=
  ⟨px - playerWidth/2, py - playerHeight/2, pz - playerWidth/2,
   px + playerWidth/2, py + playerHeight/2, pz + playerWidth/2⟩

/-- Box3.setFromObject on a block mesh: a unit cube centered at the grid
position. -/
def blockBoxAt (b : GridPos) : Box :=
  ⟨(b.1 : ℚ) - 1/2, (b.2.1 : ℚ) - 1/2, (b.2.2 : ℚ) - 1/2,
   (b.1 : ℚ) + 1/2, (b.2.1 : ℚ) + 1/2, (b.2.2 : ℚ) + 1/2⟩

/-- Box3.intersectsBox: overlap test, inclusive on the boundary exactly as the
three.js implementation (separation requires a strict inequality). -/
def intersects (a b : Box) : Prop :=
  a.minX ≤ b.maxX ∧ b.minX ≤ a.maxX ∧
  a.minY ≤ b.maxY ∧ b.minY ≤ a.maxY ∧
  a.minZ ≤ b.maxZ ∧ b.minZ ≤ a.maxZ

instance (a b : Box) : Decidable (intersects a b) := by
  unfold intersects; infer_instance

/-- One inventory slot (player.js constructor: fields type and count, with a
null type denoting an empty slot). -/
structure Slot where
  ty : Option BlockType
  count : ℤ
deriving DecidableEq, Repr

/-- Avatar state (player.js constructor). Camera orientation is owned by the
controls object and never written by the physics, so it is not part of this
state. -/
structure Player where
  px : ℚ
  py : ℚ
  pz : ℚ
  vx : ℚ
  vy : ℚ
  vz : ℚ
  onGround : Bool
  fallTime : ℚ
  inventory : List Slot
  selectedSlot : ℕ
deriving DecidableEq, Repr

/-- Initial avatar state from the Player constructor: position (0,20,0), zero
velocity, airborne, fallTime 0, nine empty slots, slot 0 selected. -/
def initialPlayer : Player :=
  ⟨0, 20, 0, 0, 0, 0, false, 0, List.replicate 9 ⟨none, 0⟩, 0⟩

/-- Gravity magnitude computed each airborne tick (player.js update):
min(baseGravity + fallTime*gravityAcceleration, maxGravity), evaluated at the
already-incremented fall time. -/
def currentGravity (fallTime : ℚ) : ℚ :=
  jsMin (baseGravity + fallTime * gravityAcceleration) maxGravity

/-- Gravity phase of Player.update: airborne increments fallTime by the fixed
timestep and integrates gravity into vy; grounded resets fallTime to 0 and
leaves vy alone. -/
def applyGravity (s : Player) : Player :=
  if s.onGround then { s with fallTime := 0 }
  else
    { s with fallTime := s.fallTime + fixedDelta,
             vy := s.vy - currentGravity (s.fallTime + fixedDelta) * fixedDelta }

/-- Position integration phase of Player.update: position += velocity * dt on
all three axes. -/
def integrate (s : Player) : Player :=
  { s with px := s.px + s.vx * fixedDelta,
           pz := s.pz + s.vz * fixedDelta,
           py := s.py + s.vy * fixedDelta }

/-- Penetration depth along x (player.js handleCollisions). -/
def penX (p b : Box) : ℚ := jsMin (jsAbs (p.maxX - b.minX)) (jsAbs (p.minX - b.maxX))

/-- Penetration depth along y (player.js handleCollisions). -/
def penY (p b : Box) : ℚ := jsMin (jsAbs (p.maxY - b.minY)) (jsAbs (p.minY - b.maxY))

/-- Penetration depth along z (player.js handleCollisions). -/
def penZ (p b : Box) : ℚ := jsMin (jsAbs (p.maxZ - b.minZ)) (jsAbs (p.minZ - b.maxZ))

/-- One iteration of the collision loop in Player.handleCollisions. The player
box pbox is the snapshot built before the loop from the post-integration
position and is not rebuilt as the loop mutates the player, exactly as in the
source; the live player state and the running highest-block accumulator
(initially -Infinity, embedded as none) are threaded through. -/
def resolveBlock (pbox : Box) (b : GridPos) (acc : Player × Option ℚ) : Player × Option ℚ :=
  let s := acc.1
  let hb := acc.2
  let bb := blockBoxAt b
  if intersects pbox bb then
    let pX := penX pbox bb
    let pY := penY pbox bb
    let pZ := penZ pbox bb
    let minPen := jsMin pX (jsMin pY pZ)
    if minPen = pY then
      if s.py > (b.2.1 : ℚ) then
        if s.vy ≤ 0 ∧ s.py - (bb.maxY + playerHeight/2) < 1/10 then
          ({ s with py := bb.maxY + playerHeight/2, vy := 0, onGround := true },
           some (match hb with
                 | none => (b.2.1 : ℚ) + 1
                 | some h => jsMax h ((b.2.1 : ℚ) + 1)))
        else acc
      else
        ({ s with py := bb.minY - playerHeight/2, vy := jsMin 0 s.vy }, hb)
    else if minPen = pX then
      ({ s with px := if s.px > (b.1 : ℚ) then bb.maxX + playerWidth/2 else bb.minX - playerWidth/2,
                vx := 0 }, hb)
    else if minPen = pZ then
      ({ s with pz := if s.pz > (b.2.2 : ℚ) then bb.maxZ + playerWidth/2 else bb.minZ - playerWidth/2,
                vz := 0 }, hb)
    else acc
  else acc

/-- Trailing step of Player.handleCollisions: clear onGround when the player
y is more than 0.1 above the highest landed-on block top; with the
highest-block accumulator still at its -Infinity start (none) the comparison
is always true and onGround is cleared. -/
def clearAirborne (s1 : Player) (hb : Option ℚ) : Player :=
  match hb with
  | none => { s1 with onGround := false }
  | some h => if s1.py > h + 1/10 then { s1 with onGround := false } else s1

/-- Player.handleCollisions: fold the per-block resolution over all world
blocks in collection order, then apply the ground-state check. -/
def handleCollisions (world : List WBlock) (s : Player) : Player :=
  let pbox := playerBoxAt s.px s.py s.pz
  let res := world.foldl (fun acc b => resolveBlock pbox b.1 acc) (s, (none : Option ℚ))
  clearAirborne res.1 res.2

/-- Player.update on the fixed timestep: gravity, integration, collision
resolution (camera repositioning is rendering glue and omitted). -/
def update (world : List WBlock) (s : Player) : Player :=
  handleCollisions world (integrate (applyGravity s))

/-- Iterated update ticks. -/
def simulate (world : List WBlock) (s : Player) : ℕ → Player
  | 0 => s
  | n + 1 => update world (simulate world s n)

/-- Player.jump: grounded sets vy to the jump impulse and clears onGround,
airborne is a no-op. -/
def jump (s : Player) : Player :=
  if s.onGround then { s with vy := jumpForce, onGround := false } else s

/-- Player.move. In the source the camera-space direction is computed entirely
on local temporaries: forward and right come from the camera quaternion, their
y components are zeroed, both are normalized, the intent components blend them
into moveVector, and moveVector is normalized before scaling. Normalization
divides by a square root and is irrational, so the blended vector mv (whose
length-positive test is mv nonzero, its y component being identically 0) and
its normalization unitDir enter here as parameters; nothing else of that
computation touches the player state. -/
def move (mv unitDir : ℚ × ℚ) (isSprinting : Bool) (s : Player) : Player :=
  if mv ≠ (0, 0) then
    { s with vx := unitDir.1 * (if isSprinting then sprintSpeed else walkSpeed),
             vz := unitDir.2 * (if isSprinting then sprintSpeed else walkSpeed) }
  else
    { s with vx := 0, vz := 0 }

/-- Array.prototype.findIndex with running index, returning -1 when no element
satisfies the predicate. -/
def findIndexFrom (p : Slot → Bool) : List Slot → ℤ → ℤ
  | [], _ => -1
  | a :: l, i => if p a then i else findIndexFrom p l (i + 1)

/-- JS findIndex over an inventory array. -/
def findIndex (p : Slot → Bool) (l : List Slot) : ℤ := findIndexFrom p l 0

/-- Predicate from Player.addToInventory: a slot whose type matches the picked
up type or whose type is null. -/
def slotMatches (t : BlockType) (s : Slot) : Bool :=
  decide (s.ty = some t) || decide (s.ty = none)

/-- Slot index chosen by Player.addToInventory: the first matching-or-empty
slot from findIndex, falling back to the selected slot on -1. -/
def jsSlotIndex (inv : List Slot) (sel : ℕ) (t : BlockType) : ℕ :=
  if findIndex (slotMatches t) inv = -1 then sel else (findIndex (slotMatches t) inv).toNat

/-- Player.addToInventory: at the chosen slot, initialize an empty slot to
(type, 1), otherwise increment the count of whatever the slot already holds.
The out of range case (none) cannot arise for a 9-slot inventory with a valid
selected slot and is the identity. -/
def addToInventory (inv : List Slot) (sel : ℕ) (t : BlockType) : List Slot :=
  match inv[jsSlotIndex inv sel t]? with
  | some s =>
      if s.ty = none then inv.set (jsSlotIndex inv sel t) ⟨some t, 1⟩
      else inv.set (jsSlotIndex inv sel t) ⟨s.ty, s.count + 1⟩
  | none => inv

/-- Player.removeFromInventory: decrement the selected slot when it holds a
type, clearing the slot when the count reaches 0. -/
def removeFromInventory (inv : List Slot) (sel : ℕ) : List Slot :=
  match inv[sel]? with
  | some s =>
      if s.ty ≠ none then
        if s.count - 1 ≤ 0 then inv.set sel ⟨none, 0⟩ else inv.set sel ⟨s.ty, s.count - 1⟩
      else inv
  | none => inv

/-- Player.getSelectedBlockType: the type held by the selected slot. -/
def getSelectedBlockType (inv : List Slot) (sel : ℕ) : Option BlockType :=
  match inv[sel]? with
  | some s => s.ty
  | none => none

/-- World.addBlock: builds a mesh at the position and appends it to the block
group; there is no occupancy check, overwrite, or rejection. -/
def addBlock (world : List WBlock) (p : GridPos) (t : BlockType) : List WBlock :=
  world ++ [(p, t)]

/-- Step function of the World.findSafeSpawnPosition scan: take the max with a
block y when the block sits at grid column (0,0). -/
def spawnStep (h : ℤ) (b : WBlock) : ℤ :=
  if b.1.1 = 0 ∧ b.1.2.2 = 0 then max h b.1.2.1 else h

/-- World.findSafeSpawnPosition: scan all blocks, fold the column-(0,0) max
starting from 0, and return (0, highestY + 2, 0). -/
def findSafeSpawnPosition (world : List WBlock) : GridPos :=
  let highestY := world.foldl spawnStep 0
  (0, highestY + 2, 0)

/-- Elevation of a terrain column (World.generateTerrain): floor of
(noise(x*0.05, z*0.05) + 1) * height/2 with height = 8. -/
def elevationAt (noise : ℚ → ℚ → ℚ) (x z : ℤ) : ℤ :=
  Int.floor ((noise ((x : ℚ) * (1/20)) ((z : ℚ) * (1/20)) + 1) * 8 / 2)

/-- Ground block material chosen in World.generateTerrain: grass at the
surface, dirt for the next two layers below, stone further down. -/
def groundMaterial (y e : ℤ) : BlockType :=
  if y = e then .grass else if y > e - 3 then .dirt else .stone

/-- A single terrain column: blocks for y from 0 to the elevation inclusive
(no blocks when the elevation is negative, as the source loop never runs). -/
def columnBlocks (x z e : ℤ) : List WBlock :=
  (List.range (e + 1).toNat).map fun (y : ℕ) => ((x, (y : ℤ), z), groundMaterial (y : ℤ) e)

/-- Ground pass of World.generateTerrain with size = 48: every column (x,z)
with both coordinates in the half-open square [-24, 24). The randomized tree
pass that may follow each column is modeled separately by generateTree. -/
def generateTerrainGround (noise : ℚ → ℚ → ℚ) : List WBlock :=
  (List.range 48).flatMap fun (i : ℕ) =>
    (List.range 48).flatMap fun (j : ℕ) =>
      columnBlocks ((i : ℤ) - 24) ((j : ℤ) - 24) (elevationAt noise ((i : ℤ) - 24) ((j : ℤ) - 24))

/-- Leaf offsets of World.generateTree: the box lx,lz in [-2,2], ly in [-1,2],
skipping the four corner columns where both |lx| and |lz| are 2, in source
loop order. -/
def leafOffsets : List (ℤ × ℤ × ℤ) :=
  (List.range 5).flatMap fun (a : ℕ) =>
    (List.range 4).flatMap fun (b : ℕ) =>
      (List.range 5).filterMap fun (c : ℕ) =>
        if ((a : ℤ) - 2).natAbs = 2 ∧ ((c : ℤ) - 2).natAbs = 2 then none
        else some ((a : ℤ) - 2, (b : ℤ) - 1, (c : ℤ) - 2)

/-- World.generateTree at root (x,y,z) with the given trunk height (drawn in
the source as 4 + a uniform integer in 0..2): wood for the trunk, then the
leaf box around y + treeHeight. -/
def generateTree (x y z : ℤ) (treeHeight : ℕ) : List WBlock :=
  ((List.range treeHeight).map fun (i : ℕ) => ((x, y + (i : ℤ), z), BlockType.wood)) ++
  leafOffsets.map fun o => ((x + o.1, y + (treeHeight : ℤ) + o.2.1, z + o.2.2), BlockType.leaves)

/-- Squared Euclidean distance from a candidate cell to the avatar position.
The source compares Vector3.distanceTo (a square root) against 5; for
nonnegative quantities that is exactly squared distance against 25. -/
def distSqFromCell (c : GridPos) (px py pz : ℚ) : ℚ :=
  ((c.1 : ℚ) - px)^2 + ((c.2.1 : ℚ) - py)^2 + ((c.2.2 : ℚ) - pz)^2

/-- InputHandler.handleBlockPlacement after a successful raycast, given the
rounded candidate cell c: within reach 5, not intersecting the avatar box, and
a non-empty selected slot adds the block and decrements the inventory;
otherwise nothing changes. -/
def handleBlockPlacement (c : GridPos) (world : List WBlock) (s : Player) :
    List WBlock × Player :=
  if distSqFromCell c s.px s.py s.pz ≤ 25 then
    if ¬ intersects (blockBoxAt c) (playerBoxAt s.px s.py s.pz) then
      match getSelectedBlockType s.inventory s.selectedSlot with
      | some t =>
          (addBlock world c t,
           { s with inventory := removeFromInventory s.inventory s.selectedSlot })
      | none => (world, s)
    else (world, s)
  else (world, s)

/-- World with a single stone block at the origin (landing scenario of C1). -/
def dropWorld : List WBlock := [((0, 0, 0), BlockType.stone)]

/-- Avatar dropped from (0,5,0) with zero velocity (landing scenario of C1). -/
def dropStart : Player := { initialPlayer with py := 5 }

/-- Resting state that the landing scenario converges to: standing on the
origin block with py = blockTop + height/2 = 11/10. -/
def dropRest : Player := ⟨0, 11/10, 0, 0, 0, 0, true, 0, List.replicate 9 ⟨none, 0⟩, 0⟩

/-- World with a single stone block at (0,18,0), used to land the avatar
dropped from its constructor position (0,20,0). -/
def c3World : List WBlock := [((0, 18, 0), BlockType.stone)]

/-- Inventory with all nine slots holding stone, count 1. -/
def fullStoneInv : List Slot := List.replicate 9 ⟨some BlockType.stone, 1⟩

/-- Player used in the C7 witness: standing at (0,2,0) with stone selected. -/
def c7Player : Player :=
  { initialPlayer with py := 2,
                       inventory := ⟨some BlockType.stone, 2⟩ :: List.replicate 8 ⟨none, 0⟩ }

/-! Helper lemmas. -/

/-- Math.min is bounded by its right argument. -/
theorem jsMin_le_right (a b : ℚ) : jsMin a b ≤ b := by
  unfold jsMin; split_ifs with h
  · exact h
  · exact le_refl b

/-- Math.min of three values equals the middle one when it is least. -/
theorem jsMin_eq_mid {a b c : ℚ} (hba : b ≤ a) (hbc : b ≤ c) :
    jsMin a (jsMin b c) = b := by
  unfold jsMin; split_ifs <;> linarith

/-- A collision-loop iteration never changes fallTime. -/
theorem resolveBlock_fallTime (pbox : Box) (b : GridPos) (acc : Player × Option ℚ) :
    (resolveBlock pbox b acc).1.fallTime = acc.1.fallTime := by
  unfold resolveBlock
  dsimp only
  split_ifs <;> rfl

/-- The whole collision fold never changes fallTime. -/
theorem foldl_resolve_fallTime (pbox : Box) (world : List WBlock)
    (acc : Player × Option ℚ) :
    (world.foldl (fun a b => resolveBlock pbox b.1 a) acc).1.fallTime = acc.1.fallTime := by
  induction world generalizing acc with
  | nil => rfl
  | cons b l ih =>
      rw [List.foldl_cons, ih (resolveBlock pbox b.1 acc), resolveBlock_fallTime]

/-- The ground-state check never changes fallTime. -/
theorem clearAirborne_fallTime (s1 : Player) (hb : Option ℚ) :
    (clearAirborne s1 hb).fallTime = s1.fallTime := by
  unfold clearAirborne
  rcases hb with _ | h
  · rfl
  · dsimp only
    split_ifs <;> rfl

/-- Player.handleCollisions never changes fallTime. -/
theorem handleCollisions_fallTime (world : List WBlock) (s : Player) :
    (handleCollisions world s).fallTime = s.fallTime := by
  unfold handleCollisions
  rw [clearAirborne_fallTime, foldl_resolve_fallTime]

/-! Claim theorems. -/

/-- C2: on every airborne tick the applied gravity is
min(baseGravity + fallTime*gravityAcceleration, maxGravity) computed at the
incremented fall time, it never exceeds maxGravity = 35, and vy decreases by
exactly that gravity times the fixed timestep; on a grounded tick the gravity
phase leaves vy untouched and resets fallTime. The last conjunct records that
the update tick applies exactly this gravity phase before integration and
collision resolution. -/
theorem c2_gravity_model (s : Player) :
    currentGravity (s.fallTime + fixedDelta) ≤ maxGravity ∧
    (s.onGround = false →
      (applyGravity s).vy = s.vy - currentGravity (s.fallTime + fixedDelta) * fixedDelta ∧
      (applyGravity s).fallTime = s.fallTime + fixedDelta) ∧
    (s.onGround = true →
      (applyGravity s).vy = s.vy ∧ (applyGravity s).fallTime = 0) ∧
    (∀ world : List WBlock, update world s = handleCollisions world (integrate (applyGravity s))) := by
  refine ⟨jsMin_le_right _ _, ?_, ?_, fun _ => rfl⟩
  · intro h
    unfold applyGravity
    rw [h]
    exact ⟨rfl, rfl⟩
  · intro h
    unfold applyGravity
    rw [h]
    exact ⟨rfl, rfl⟩

/-- C2 witness: the clamp and the airborne integration instantiated at the
initial avatar state. -/
theorem c2_witness :
    currentGravity (initialPlayer.fallTime + fixedDelta) ≤ maxGravity ∧
    (applyGravity initialPlayer).vy =
      initialPlayer.vy - currentGravity (initialPlayer.fallTime + fixedDelta) * fixedDelta :=
  ⟨(c2_gravity_model initialPlayer).1,
   ((c2_gravity_model initialPlayer).2.1 rfl).1⟩

/-- C10: Player.move writes only the horizontal velocity components; vertical
velocity, position, grounded flag, fall time, inventory and selected slot are
all unchanged, for every blended direction (zero included), sprint flag and
avatar state. -/
theorem c10_move_frame_effect (mv unitDir : ℚ × ℚ) (isSprinting : Bool) (s : Player) :
    (move mv unitDir isSprinting s).py = s.py ∧
    (move mv unitDir isSprinting s).px = s.px ∧
    (move mv unitDir isSprinting s).pz = s.pz ∧
    (move mv unitDir isSprinting s).vy = s.vy ∧
    (move mv unitDir isSprinting s).onGround = s.onGround ∧
    (move mv unitDir isSprinting s).fallTime = s.fallTime ∧
    (move mv unitDir isSprinting s).inventory = s.inventory ∧
    (move mv unitDir isSprinting s).selectedSlot = s.selectedSlot := by
  unfold move
  split_ifs <;> exact ⟨rfl, rfl, rfl, rfl, rfl, rfl, rfl, rfl⟩

/-- C8 counterexample: two addBlock calls at the same grid position leave two
blocks at that position, refuting the at-most-one-block-per-position reading. -/
theorem c8_counterexample :
    (addBlock (addBlock [] (0, 0, 0) BlockType.grass) (0, 0, 0) BlockType.stone).countP
        (fun b => decide (b.1 = ((0, 0, 0) : GridPos))) = 2 ∧
    ¬ ((addBlock (addBlock [] (0, 0, 0) BlockType.grass) (0, 0, 0) BlockType.stone).countP
        (fun b => decide (b.1 = ((0, 0, 0) : GridPos))) ≤ 1) := by
  decide

/-- C8 amended: addBlock unconditionally appends; each call at a position
increases the number of blocks stored at that position by exactly one, so
repeated adds accumulate duplicates and no uniqueness invariant holds. -/
theorem c8_addBlock_appends (world : List WBlock) (p : GridPos) (t : BlockType) :
    addBlock world p t = world ++ [(p, t)] ∧
    (addBlock world p t).countP (fun b => decide (b.1 = p)) =
      world.countP (fun b => decide (b.1 = p)) + 1 := by
  refine ⟨rfl, ?_⟩
  unfold addBlock
  rw [List.countP_append]
  simp [List.countP_cons]

/-- C6 counterexample: a world whose only column-(0,0) block is at y = -1
yields spawn height 2, which does not exceed the highest block by exactly 2. -/
theorem c6_counterexample :
    findSafeSpawnPosition [((0, -1, 0), BlockType.stone)] = (0, 2, 0) ∧
    (findSafeSpawnPosition [((0, -1, 0), BlockType.stone)]).2.1 ≠ (-1) + 2 := by
  decide

set_option maxRecDepth 20000

/-- Tick 1 of the drop scenario, evaluated. -/
theorem dropSim1 : simulate dropWorld dropStart 1 = ⟨0, 539243/108000, 0, 0, -757/1800, 0, false, 1/60, List.replicate 9 ⟨none, 0⟩, 0⟩ := by
  rw [show (1 : ℕ) = 0 + 1 from rfl, simulate]
  norm_num [simulate, update, applyGravity, integrate, handleCollisions, clearAirborne,
    resolveBlock, intersects, penX, penY, penZ, jsMin, jsMax, jsAbs, playerBoxAt,
    blockBoxAt, currentGravity, playerHeight, playerWidth, fixedDelta, baseGravity,
    maxGravity, gravityAcceleration, dropWorld, dropStart, initialPlayer]

/-- Tick 2 of the drop scenario, evaluated. -/
theorem dropSim2 : simulate dropWorld dropStart 2 = ⟨0, 268861/54000, 0, 0, -169/200, 0, false, 1/30, List.replicate 9 ⟨none, 0⟩, 0⟩ := by
  rw [show (2 : ℕ) = 1 + 1 from rfl, simulate, dropSim1]
  norm_num [simulate, update, applyGravity, integrate, handleCollisions, clearAirborne,
    resolveBlock, intersects, penX, penY, penZ, jsMin, jsMax, jsAbs, playerBoxAt,
    blockBoxAt, currentGravity, playerHeight, playerWidth, fixedDelta, baseGravity,
    maxGravity, gravityAcceleration, dropWorld]

/-- Tick 3 of the drop scenario, evaluated. -/
theorem dropSim3 : simulate dropWorld dropStart 3 = ⟨0, 53543/10800, 0, 0, -191/150, 0, false, 1/20, List.replicate 9 ⟨none, 0⟩, 0⟩ := by
  rw [show (3 : ℕ) = 2 + 1 from rfl, simulate, dropSim2]
  norm_num [simulate, update, applyGravity, integrate, handleCollisions, clearAirborne,
    resolveBlock, intersects, penX, penY, penZ, jsMin, jsMax, jsAbs, playerBoxAt,
    blockBoxAt, currentGravity, playerHeight, playerWidth, fixedDelta, baseGravity,
    maxGravity, gravityAcceleration, dropWorld]

/-- Tick 4 of the drop scenario, evaluated. -/
theorem dropSim4 : simulate dropWorld dropStart 4 = ⟨0, 13309/2700, 0, 0, -307/180, 0, false, 1/15, List.replicate 9 ⟨none, 0⟩, 0⟩ := by
  rw [show (4 : ℕ) = 3 + 1 from rfl, simulate, dropSim3]
  norm_num [simulate, update, applyGravity, integrate, handleCollisions, clearAirborne,
    resolveBlock, intersects, penX, penY, penZ, jsMin, jsMax, jsAbs, playerBoxAt,
    blockBoxAt, currentGravity, playerHeight, playerWidth, fixedDelta, baseGravity,
    maxGravity, gravityAcceleration, dropWorld]

/-- Tick 5 of the drop scenario, evaluated. -/
theorem dropSim5 : simulate dropWorld dropStart 5 = ⟨0, 105701/21600, 0, 0, -257/120, 0, false, 1/12, List.replicate 9 ⟨none, 0⟩, 0⟩ := by
  rw [show (5 : ℕ) = 4 + 1 from rfl, simulate, dropSim4]
  norm_num [simulate, update, applyGravity, integrate, handleCollisions, clearAirborne,
    resolveBlock, intersects, penX, penY, penZ, jsMin, jsMax, jsAbs, playerBoxAt,
    blockBoxAt, currentGravity, playerHeight, playerWidth, fixedDelta, baseGravity,
    maxGravity, gravityAcceleration, dropWorld]

/-- Tick 6 of the drop scenario, evaluated. -/
theorem dropSim6 : simulate dropWorld dropStart 6 = ⟨0, 261929/54000, 0, 0, -1549/600, 0, false, 1/10, List.replicate 9 ⟨none, 0⟩, 0⟩ := by
  rw [show (6 : ℕ) = 5 + 1 from rfl, simulate, dropSim5]
  norm_num [simulate, update, applyGravity, integrate, handleCollisions, clearAirborne,
    resolveBlock, intersects, penX, penY, penZ, jsMin, jsMax, jsAbs, playerBoxAt,
    blockBoxAt, currentGravity, playerHeight, playerWidth, fixedDelta, baseGravity,
    maxGravity, gravityAcceleration, dropWorld]

/-- Tick 7 of the drop scenario, evaluated. -/
theorem dropSim7 : simulate dropWorld dropStart 7 = ⟨0, 43201/9000, 0, 0, -2723/900, 0, false, 7/60, List.replicate 9 ⟨none, 0⟩, 0⟩ := by
  rw [show (7 : ℕ) = 6 + 1 from rfl, simulate, dropSim6]
  norm_num [simulate, update, applyGravity, integrate, handleCollisions, clearAirborne,
    resolveBlock, intersects, penX, penY, penZ, jsMin, jsMax, jsAbs, playerBoxAt,
    blockBoxAt, currentGravity, playerHeight, playerWidth, fixedDelta, baseGravity,
    maxGravity, gravityAcceleration, dropWorld]

/-- Tick 8 of the drop scenario, evaluated. -/
theorem dropSim8 : simulate dropWorld dropStart 8 = ⟨0, 1067/225, 0, 0, -521/150, 0, false, 2/15, List.replicate 9 ⟨none, 0⟩, 0⟩ := by
  rw [show (8 : ℕ) = 7 + 1 from rfl, simulate, dropSim7]
  norm_num [simulate, update, applyGravity, integrate, handleCollisions, clearAirborne,
    resolveBlock, intersects, penX, penY, penZ, jsMin, jsMax, jsAbs, playerBoxAt,
    blockBoxAt, currentGravity, playerHeight, playerWidth, fixedDelta, baseGravity,
    maxGravity, gravityAcceleration, dropWorld]

/-- Tick 9 of the drop scenario, evaluated. -/
theorem dropSim9 : simulate dropWorld dropStart 9 = ⟨0, 33673/7200, 0, 0, -157/40, 0, false, 3/20, List.replicate 9 ⟨none, 0⟩, 0⟩ := by
  rw [show (9 : ℕ) = 8 + 1 from rfl, simulate, dropSim8]
  norm_num [simulate, update, applyGravity, integrate, handleCollisions, clearAirborne,
    resolveBlock, intersects, penX, penY, penZ, jsMin, jsMax, jsAbs, playerBoxAt,
    blockBoxAt, currentGravity, playerHeight, playerWidth, fixedDelta, baseGravity,
    maxGravity, gravityAcceleration, dropWorld]

/-- Tick 10 of the drop scenario, evaluated. -/
theorem dropSim10 : simulate dropWorld dropStart 10 = ⟨0, 49721/10800, 0, 0, -1577/360, 0, false, 1/6, List.replicate 9 ⟨none, 0⟩, 0⟩ := by
  rw [show (10 : ℕ) = 9 + 1 from rfl, simulate, dropSim9]
  norm_num [simulate, update, applyGravity, integrate, handleCollisions, clearAirborne,
    resolveBlock, intersects, penX, penY, penZ, jsMin, jsMax, jsAbs, playerBoxAt,
    blockBoxAt, currentGravity, playerHeight, playerWidth, fixedDelta, baseGravity,
    maxGravity, gravityAcceleration, dropWorld]

/-- Tick 11 of the drop scenario, evaluated. -/
theorem dropSim11 : simulate dropWorld dropStart 11 = ⟨0, 244249/54000, 0, 0, -121/25, 0, false, 11/60, List.replicate 9 ⟨none, 0⟩, 0⟩ := by
  rw [show (11 : ℕ) = 10 + 1 from rfl, simulate, dropSim10]
  norm_num [simulate, update, applyGravity, integrate, handleCollisions, clearAirborne,
    resolveBlock, intersects, penX, penY, penZ, jsMin, jsMax, jsAbs, playerBoxAt,
    blockBoxAt, currentGravity, playerHeight, playerWidth, fixedDelta, baseGravity,
    maxGravity, gravityAcceleration, dropWorld]

/-- Tick 12 of the drop scenario, evaluated. -/
theorem dropSim12 : simulate dropWorld dropStart 12 = ⟨0, 59869/13500, 0, 0, -1591/300, 0, false, 1/5, List.replicate 9 ⟨none, 0⟩, 0⟩ := by
  rw [show (12 : ℕ) = 11 + 1 from rfl, simulate, dropSim11]
  norm_num [simulate, update, applyGravity, integrate, handleCollisions, clearAirborne,
    resolveBlock, intersects, penX, penY, penZ, jsMin, jsMax, jsAbs, playerBoxAt,
    blockBoxAt, currentGravity, playerHeight, playerWidth, fixedDelta, baseGravity,
    maxGravity, gravityAcceleration, dropWorld]

/-- Tick 13 of the drop scenario, evaluated. -/
theorem dropSim13 : simulate dropWorld dropStart 13 = ⟨0, 93713/21600, 0, 0, -10387/1800, 0, false, 13/60, List.replicate 9 ⟨none, 0⟩, 0⟩ := by
  rw [show (13 : ℕ) = 12 + 1 from rfl, simulate, dropSim12]
  norm_num [simulate, update, applyGravity, integrate, handleCollisions, clearAirborne,
    resolveBlock, intersects, penX, penY, penZ, jsMin, jsMax, jsAbs, playerBoxAt,
    blockBoxAt, currentGravity, playerHeight, playerWidth, fixedDelta, baseGravity,
    maxGravity, gravityAcceleration, dropWorld]

/-- Tick 14 of the drop scenario, evaluated. -/
theorem dropSim14 : simulate dropWorld dropStart 14 = ⟨0, 45733/10800, 0, 0, -749/120, 0, false, 7/30, List.replicate 9 ⟨none, 0⟩, 0⟩ := by
  rw [show (14 : ℕ) = 13 + 1 from rfl, simulate, dropSim13]
  norm_num [simulate, update, applyGravity, integrate, handleCollisions, clearAirborne,
    resolveBlock, intersects, penX, penY, penZ, jsMin, jsMax, jsAbs, playerBoxAt,
    blockBoxAt, currentGravity, playerHeight, playerWidth, fixedDelta, baseGravity,
    maxGravity, gravityAcceleration, dropWorld]

/-- Tick 15 of the drop scenario, evaluated. -/
theorem dropSim15 : simulate dropWorld dropStart 15 = ⟨0, 11131/2700, 0, 0, -403/60, 0, false, 1/4, List.replicate 9 ⟨none, 0⟩, 0⟩ := by
  rw [show (15 : ℕ) = 14 + 1 from rfl, simulate, dropSim14]
  norm_num [simulate, update, applyGravity, integrate, handleCollisions, clearAirborne,
    resolveBlock, intersects, penX, penY, penZ, jsMin, jsMax, jsAbs, playerBoxAt,
    blockBoxAt, currentGravity, playerHeight, playerWidth, fixedDelta, baseGravity,
    maxGravity, gravityAcceleration, dropWorld]

/-- Tick 16 of the drop scenario, evaluated. -/
theorem dropSim16 : simulate dropWorld dropStart 16 = ⟨0, 1501/375, 0, 0, -1619/225, 0, false, 4/15, List.replicate 9 ⟨none, 0⟩, 0⟩ := by
  rw [show (16 : ℕ) = 15 + 1 from rfl, simulate, dropSim15]
  norm_num [simulate, update, applyGravity, integrate, handleCollisions, clearAirborne,
    resolveBlock, intersects, penX, penY, penZ, jsMin, jsMax, jsAbs, playerBoxAt,
    blockBoxAt, currentGravity, playerHeight, playerWidth, fixedDelta, baseGravity,
    maxGravity, gravityAcceleration, dropWorld]

/-- Tick 17 of the drop scenario, evaluated. -/
theorem dropSim17 : simulate dropWorld dropStart 17 = ⟨0, 139489/36000, 0, 0, -4607/600, 0, false, 17/60, List.replicate 9 ⟨none, 0⟩, 0⟩ := by
  rw [show (17 : ℕ) = 16 + 1 from rfl, simulate, dropSim16]
  norm_num [simulate, update, applyGravity, integrate, handleCollisions, clearAirborne,
    resolveBlock, intersects, penX, penY, penZ, jsMin, jsMax, jsAbs, playerBoxAt,
    blockBoxAt, currentGravity, playerHeight, playerWidth, fixedDelta, baseGravity,
    maxGravity, gravityAcceleration, dropWorld]

/-- Tick 18 of the drop scenario, evaluated. -/
theorem dropSim18 : simulate dropWorld dropStart 18 = ⟨0, 13459/3600, 0, 0, -1633/200, 0, false, 3/10, List.replicate 9 ⟨none, 0⟩, 0⟩ := by
  rw [show (18 : ℕ) = 17 + 1 from rfl, simulate, dropSim17]
  norm_num [simulate, update, applyGravity, integrate, handleCollisions, clearAirborne,
    resolveBlock, intersects, penX, penY, penZ, jsMin, jsMax, jsAbs, playerBoxAt,
    blockBoxAt, currentGravity, playerHeight, playerWidth, fixedDelta, baseGravity,
    maxGravity, gravityAcceleration, dropWorld]

/-- Tick 19 of the drop scenario, evaluated. -/
theorem dropSim19 : simulate dropWorld dropStart 19 = ⟨0, 38819/10800, 0, 0, -779/90, 0, false, 19/60, List.replicate 9 ⟨none, 0⟩, 0⟩ := by
  rw [show (19 : ℕ) = 18 + 1 from rfl, simulate, dropSim18]
  norm_num [simulate, update, applyGravity, integrate, handleCollisions, clearAirborne,
    resolveBlock, intersects, penX, penY, penZ, jsMin, jsMax, jsAbs, playerBoxAt,
    blockBoxAt, currentGravity, playerHeight, playerWidth, fixedDelta, baseGravity,
    maxGravity, gravityAcceleration, dropWorld]

/-- Tick 20 of the drop scenario, evaluated. -/
theorem dropSim20 : simulate dropWorld dropStart 20 = ⟨0, 9293/2700, 0, 0, -183/20, 0, false, 1/3, List.replicate 9 ⟨none, 0⟩, 0⟩ := by
  rw [show (20 : ℕ) = 19 + 1 from rfl, simulate, dropSim19]
  norm_num [simulate, update, applyGravity, integrate, handleCollisions, clearAirborne,
    resolveBlock, intersects, penX, penY, penZ, jsMin, jsMax, jsAbs, playerBoxAt,
    blockBoxAt, currentGravity, playerHeight, playerWidth, fixedDelta, baseGravity,
    maxGravity, gravityAcceleration, dropWorld]

/-- Tick 21 of the drop scenario, evaluated. -/
theorem dropSim21 : simulate dropWorld dropStart 21 = ⟨0, 354353/108000, 0, 0, -5789/600, 0, false, 7/20, List.replicate 9 ⟨none, 0⟩, 0⟩ := by
  rw [show (21 : ℕ) = 20 + 1 from rfl, simulate, dropSim20]
  norm_num [simulate, update, applyGravity, integrate, handleCollisions, clearAirborne,
    resolveBlock, intersects, penX, penY, penZ, jsMin, jsMax, jsAbs, playerBoxAt,
    blockBoxAt, currentGravity, playerHeight, playerWidth, fixedDelta, baseGravity,
    maxGravity, gravityAcceleration, dropWorld]

/-- Tick 22 of the drop scenario, evaluated. -/
theorem dropSim22 : simulate dropWorld dropStart 22 = ⟨0, 168041/54000, 0, 0, -18271/1800, 0, false, 11/30, List.replicate 9 ⟨none, 0⟩, 0⟩ := by
  rw [show (22 : ℕ) = 21 + 1 from rfl, simulate, dropSim21]
  norm_num [simulate, update, applyGravity, integrate, handleCollisions, clearAirborne,
    resolveBlock, intersects, penX, penY, penZ, jsMin, jsMax, jsAbs, playerBoxAt,
    blockBoxAt, currentGravity, playerHeight, playerWidth, fixedDelta, baseGravity,
    maxGravity, gravityAcceleration, dropWorld]

/-- Tick 23 of the drop scenario, evaluated. -/
theorem dropSim23 : simulate dropWorld dropStart 23 = ⟨0, 3169/1080, 0, 0, -3197/300, 0, false, 23/60, List.replicate 9 ⟨none, 0⟩, 0⟩ := by
  rw [show (23 : ℕ) = 22 + 1 from rfl, simulate, dropSim22]
  norm_num [simulate, update, applyGravity, integrate, handleCollisions, clearAirborne,
    resolveBlock, intersects, penX, penY, penZ, jsMin, jsMax, jsAbs, playerBoxAt,
    blockBoxAt, currentGravity, playerHeight, playerWidth, fixedDelta, baseGravity,
    maxGravity, gravityAcceleration, dropWorld]

/-- Tick 24 of the drop scenario, evaluated. -/
theorem dropSim24 : simulate dropWorld dropStart 24 = ⟨0, 371/135, 0, 0, -67/6, 0, false, 2/5, List.replicate 9 ⟨none, 0⟩, 0⟩ := by
  rw [show (24 : ℕ) = 23 + 1 from rfl, simulate, dropSim23]
  norm_num [simulate, update, applyGravity, integrate, handleCollisions, clearAirborne,
    resolveBlock, intersects, penX, penY, penZ, jsMin, jsMax, jsAbs, playerBoxAt,
    blockBoxAt, currentGravity, playerHeight, playerWidth, fixedDelta, baseGravity,
    maxGravity, gravityAcceleration, dropWorld]

/-- Tick 25 of the drop scenario, evaluated. -/
theorem dropSim25 : simulate dropWorld dropStart 25 = ⟨0, 3677/1440, 0, 0, -841/72, 0, false, 5/12, List.replicate 9 ⟨none, 0⟩, 0⟩ := by
  rw [show (25 : ℕ) = 24 + 1 from rfl, simulate, dropSim24]
  norm_num [simulate, update, applyGravity, integrate, handleCollisions, clearAirborne,
    resolveBlock, intersects, penX, penY, penZ, jsMin, jsMax, jsAbs, playerBoxAt,
    blockBoxAt, currentGravity, playerHeight, playerWidth, fixedDelta, baseGravity,
    maxGravity, gravityAcceleration, dropWorld]

/-- Tick 26 of the drop scenario, evaluated. -/
theorem dropSim26 : simulate dropWorld dropStart 26 = ⟨0, 14101/6000, 0, 0, -7319/600, 0, false, 13/30, List.replicate 9 ⟨none, 0⟩, 0⟩ := by
  rw [show (26 : ℕ) = 25 + 1 from rfl, simulate, dropSim25]
  norm_num [simulate, update, applyGravity, integrate, handleCollisions, clearAirborne,
    resolveBlock, intersects, penX, penY, penZ, jsMin, jsMax, jsAbs, playerBoxAt,
    blockBoxAt, currentGravity, playerHeight, playerWidth, fixedDelta, baseGravity,
    maxGravity, gravityAcceleration, dropWorld]

/-- Tick 27 of the drop scenario, evaluated. -/
theorem dropSim27 : simulate dropWorld dropStart 27 = ⟨0, 12829/6000, 0, 0, -318/25, 0, false, 9/20, List.replicate 9 ⟨none, 0⟩, 0⟩ := by
  rw [show (27 : ℕ) = 26 + 1 from rfl, simulate, dropSim26]
  norm_num [simulate, update, applyGravity, integrate, handleCollisions, clearAirborne,
    resolveBlock, intersects, penX, penY, penZ, jsMin, jsMax, jsAbs, playerBoxAt,
    blockBoxAt, currentGravity, playerHeight, playerWidth, fixedDelta, baseGravity,
    maxGravity, gravityAcceleration, dropWorld]

/-- Tick 28 of the drop scenario, evaluated. -/
theorem dropSim28 : simulate dropWorld dropStart 28 = ⟨0, 5177/2700, 0, 0, -11921/900, 0, false, 7/15, List.replicate 9 ⟨none, 0⟩, 0⟩ := by
  rw [show (28 : ℕ) = 27 + 1 from rfl, simulate, dropSim27]
  norm_num [simulate, update, applyGravity, integrate, handleCollisions, clearAirborne,
    resolveBlock, intersects, penX, penY, penZ, jsMin, jsMax, jsAbs, playerBoxAt,
    blockBoxAt, currentGravity, playerHeight, playerWidth, fixedDelta, baseGravity,
    maxGravity, gravityAcceleration, dropWorld]

/-- Tick 29 of the drop scenario, evaluated. -/
theorem dropSim29 : simulate dropWorld dropStart 29 = ⟨0, 36457/21600, 0, 0, -551/40, 0, false, 29/60, List.replicate 9 ⟨none, 0⟩, 0⟩ := by
  rw [show (29 : ℕ) = 28 + 1 from rfl, simulate, dropSim28]
  norm_num [simulate, update, applyGravity, integrate, handleCollisions, clearAirborne,
    resolveBlock, intersects, penX, penY, penZ, jsMin, jsMax, jsAbs, playerBoxAt,
    blockBoxAt, currentGravity, playerHeight, playerWidth, fixedDelta, baseGravity,
    maxGravity, gravityAcceleration, dropWorld]

/-- Tick 30 of the drop scenario, evaluated. -/
theorem dropSim30 : simulate dropWorld dropStart 30 = ⟨0, 15653/10800, 0, 0, -1717/120, 0, false, 1/2, List.replicate 9 ⟨none, 0⟩, 0⟩ := by
  rw [show (30 : ℕ) = 29 + 1 from rfl, simulate, dropSim29]
  norm_num [simulate, update, applyGravity, integrate, handleCollisions, clearAirborne,
    resolveBlock, intersects, penX, penY, penZ, jsMin, jsMax, jsAbs, playerBoxAt,
    blockBoxAt, currentGravity, playerHeight, playerWidth, fixedDelta, baseGravity,
    maxGravity, gravityAcceleration, dropWorld]

/-- Tick 31 of the drop scenario, evaluated. -/
theorem dropSim31 : simulate dropWorld dropStart 31 = ⟨0, 8113/6750, 0, 0, -13361/900, 0, false, 31/60, List.replicate 9 ⟨none, 0⟩, 0⟩ := by
  rw [show (31 : ℕ) = 30 + 1 from rfl, simulate, dropSim30]
  norm_num [simulate, update, applyGravity, integrate, handleCollisions, clearAirborne,
    resolveBlock, intersects, penX, penY, penZ, jsMin, jsMax, jsAbs, playerBoxAt,
    blockBoxAt, currentGravity, playerHeight, playerWidth, fixedDelta, baseGravity,
    maxGravity, gravityAcceleration, dropWorld]

/-- Tick 32 of the drop scenario, evaluated. -/
theorem dropSim32 : simulate dropWorld dropStart 32 = ⟨0, 11/10, 0, 0, 0, 0, true, 8/15, List.replicate 9 ⟨none, 0⟩, 0⟩ := by
  rw [show (32 : ℕ) = 31 + 1 from rfl, simulate, dropSim31]
  norm_num [simulate, update, applyGravity, integrate, handleCollisions, clearAirborne,
    resolveBlock, intersects, penX, penY, penZ, jsMin, jsMax, jsAbs, playerBoxAt,
    blockBoxAt, currentGravity, playerHeight, playerWidth, fixedDelta, baseGravity,
    maxGravity, gravityAcceleration, dropWorld]

/-- Tick 33 of the drop scenario, evaluated. -/
theorem dropSim33 : simulate dropWorld dropStart 33 = ⟨0, 11/10, 0, 0, 0, 0, true, 0, List.replicate 9 ⟨none, 0⟩, 0⟩ := by
  rw [show (33 : ℕ) = 32 + 1 from rfl, simulate, dropSim32]
  norm_num [simulate, update, applyGravity, integrate, handleCollisions, clearAirborne,
    resolveBlock, intersects, penX, penY, penZ, jsMin, jsMax, jsAbs, playerBoxAt,
    blockBoxAt, currentGravity, playerHeight, playerWidth, fixedDelta, baseGravity,
    maxGravity, gravityAcceleration, dropWorld]

/-- Tick 1 of the c3 scenario, evaluated. -/
theorem c3Sim1 : simulate c3World initialPlayer 1 = ⟨0, 2159243/108000, 0, 0, -757/1800, 0, false, 1/60, List.replicate 9 ⟨none, 0⟩, 0⟩ := by
  rw [show (1 : ℕ) = 0 + 1 from rfl, simulate]
  norm_num [simulate, update, applyGravity, integrate, handleCollisions, clearAirborne,
    resolveBlock, intersects, penX, penY, penZ, jsMin, jsMax, jsAbs, playerBoxAt,
    blockBoxAt, currentGravity, playerHeight, playerWidth, fixedDelta, baseGravity,
    maxGravity, gravityAcceleration, c3World, initialPlayer, initialPlayer]

/-- Tick 2 of the c3 scenario, evaluated. -/
theorem c3Sim2 : simulate c3World initialPlayer 2 = ⟨0, 1078861/54000, 0, 0, -169/200, 0, false, 1/30, List.replicate 9 ⟨none, 0⟩, 0⟩ := by
  rw [show (2 : ℕ) = 1 + 1 from rfl, simulate, c3Sim1]
  norm_num [simulate, update, applyGravity, integrate, handleCollisions, clearAirborne,
    resolveBlock, intersects, penX, penY, penZ, jsMin, jsMax, jsAbs, playerBoxAt,
    blockBoxAt, currentGravity, playerHeight, playerWidth, fixedDelta, baseGravity,
    maxGravity, gravityAcceleration, c3World]

/-- Tick 3 of the c3 scenario, evaluated. -/
theorem c3Sim3 : simulate c3World initialPlayer 3 = ⟨0, 215543/10800, 0, 0, -191/150, 0, false, 1/20, List.replicate 9 ⟨none, 0⟩, 0⟩ := by
  rw [show (3 : ℕ) = 2 + 1 from rfl, simulate, c3Sim2]
  norm_num [simulate, update, applyGravity, integrate, handleCollisions, clearAirborne,
    resolveBlock, intersects, penX, penY, penZ, jsMin, jsMax, jsAbs, playerBoxAt,
    blockBoxAt, currentGravity, playerHeight, playerWidth, fixedDelta, baseGravity,
    maxGravity, gravityAcceleration, c3World]

/-- Tick 4 of the c3 scenario, evaluated. -/
theorem c3Sim4 : simulate c3World initialPlayer 4 = ⟨0, 53809/2700, 0, 0, -307/180, 0, false, 1/15, List.replicate 9 ⟨none, 0⟩, 0⟩ := by
  rw [show (4 : ℕ) = 3 + 1 from rfl, simulate, c3Sim3]
  norm_num [simulate, update, applyGravity, integrate, handleCollisions, clearAirborne,
    resolveBlock, intersects, penX, penY, penZ, jsMin, jsMax, jsAbs, playerBoxAt,
    blockBoxAt, currentGravity, playerHeight, playerWidth, fixedDelta, baseGravity,
    maxGravity, gravityAcceleration, c3World]

/-- Tick 5 of the c3 scenario, evaluated. -/
theorem c3Sim5 : simulate c3World initialPlayer 5 = ⟨0, 429701/21600, 0, 0, -257/120, 0, false, 1/12, List.replicate 9 ⟨none, 0⟩, 0⟩ := by
  rw [show (5 : ℕ) = 4 + 1 from rfl, simulate, c3Sim4]
  norm_num [simulate, update, applyGravity, integrate, handleCollisions, clearAirborne,
    resolveBlock, intersects, penX, penY, penZ, jsMin, jsMax, jsAbs, playerBoxAt,
    blockBoxAt, currentGravity, playerHeight, playerWidth, fixedDelta, baseGravity,
    maxGravity, gravityAcceleration, c3World]

/-- Tick 6 of the c3 scenario, evaluated. -/
theorem c3Sim6 : simulate c3World initialPlayer 6 = ⟨0, 1071929/54000, 0, 0, -1549/600, 0, false, 1/10, List.replicate 9 ⟨none, 0⟩, 0⟩ := by
  rw [show (6 : ℕ) = 5 + 1 from rfl, simulate, c3Sim5]
  norm_num [simulate, update, applyGravity, integrate, handleCollisions, clearAirborne,
    resolveBlock, intersects, penX, penY, penZ, jsMin, jsMax, jsAbs, playerBoxAt,
    blockBoxAt, currentGravity, playerHeight, playerWidth, fixedDelta, baseGravity,
    maxGravity, gravityAcceleration, c3World]

/-- Tick 7 of the c3 scenario, evaluated. -/
theorem c3Sim7 : simulate c3World initialPlayer 7 = ⟨0, 178201/9000, 0, 0, -2723/900, 0, false, 7/60, List.replicate 9 ⟨none, 0⟩, 0⟩ := by
  rw [show (7 : ℕ) = 6 + 1 from rfl, simulate, c3Sim6]
  norm_num [simulate, update, applyGravity, integrate, handleCollisions, clearAirborne,
    resolveBlock, intersects, penX, penY, penZ, jsMin, jsMax, jsAbs, playerBoxAt,
    blockBoxAt, currentGravity, playerHeight, playerWidth, fixedDelta, baseGravity,
    maxGravity, gravityAcceleration, c3World]

/-- Tick 8 of the c3 scenario, evaluated. -/
theorem c3Sim8 : simulate c3World initialPlayer 8 = ⟨0, 4442/225, 0, 0, -521/150, 0, false, 2/15, List.replicate 9 ⟨none, 0⟩, 0⟩ := by
  rw [show (8 : ℕ) = 7 + 1 from rfl, simulate, c3Sim7]
  norm_num [simulate, update, applyGravity, integrate, handleCollisions, clearAirborne,
    resolveBlock, intersects, penX, penY, penZ, jsMin, jsMax, jsAbs, playerBoxAt,
    blockBoxAt, currentGravity, playerHeight, playerWidth, fixedDelta, baseGravity,
    maxGravity, gravityAcceleration, c3World]

/-- Tick 9 of the c3 scenario, evaluated. -/
theorem c3Sim9 : simulate c3World initialPlayer 9 = ⟨0, 141673/7200, 0, 0, -157/40, 0, false, 3/20, List.replicate 9 ⟨none, 0⟩, 0⟩ := by
  rw [show (9 : ℕ) = 8 + 1 from rfl, simulate, c3Sim8]
  norm_num [simulate, update, applyGravity, integrate, handleCollisions, clearAirborne,
    resolveBlock, intersects, penX, penY, penZ, jsMin, jsMax, jsAbs, playerBoxAt,
    blockBoxAt, currentGravity, playerHeight, playerWidth, fixedDelta, baseGravity,
    maxGravity, gravityAcceleration, c3World]

/-- Tick 10 of the c3 scenario, evaluated. -/
theorem c3Sim10 : simulate c3World initialPlayer 10 = ⟨0, 211721/10800, 0, 0, -1577/360, 0, false, 1/6, List.replicate 9 ⟨none, 0⟩, 0⟩ := by
  rw [show (10 : ℕ) = 9 + 1 from rfl, simulate, c3Sim9]
  norm_num [simulate, update, applyGravity, integrate, handleCollisions, clearAirborne,
    resolveBlock, intersects, penX, penY, penZ, jsMin, jsMax, jsAbs, playerBoxAt,
    blockBoxAt, currentGravity, playerHeight, playerWidth, fixedDelta, baseGravity,
    maxGravity, gravityAcceleration, c3World]

/-- Tick 11 of the c3 scenario, evaluated. -/
theorem c3Sim11 : simulate c3World initialPlayer 11 = ⟨0, 1054249/54000, 0, 0, -121/25, 0, false, 11/60, List.replicate 9 ⟨none, 0⟩, 0⟩ := by
  rw [show (11 : ℕ) = 10 + 1 from rfl, simulate, c3Sim10]
  norm_num [simulate, update, applyGravity, integrate, handleCollisions, clearAirborne,
    resolveBlock, intersects, penX, penY, penZ, jsMin, jsMax, jsAbs, playerBoxAt,
    blockBoxAt, currentGravity, playerHeight, playerWidth, fixedDelta, baseGravity,
    maxGravity, gravityAcceleration, c3World]

/-- Tick 12 of the c3 scenario, evaluated. -/
theorem c3Sim12 : simulate c3World initialPlayer 12 = ⟨0, 262369/13500, 0, 0, -1591/300, 0, false, 1/5, List.replicate 9 ⟨none, 0⟩, 0⟩ := by
  rw [show (12 : ℕ) = 11 + 1 from rfl, simulate, c3Sim11]
  norm_num [simulate, update, applyGravity, integrate, handleCollisions, clearAirborne,
    resolveBlock, intersects, penX, penY, penZ, jsMin, jsMax, jsAbs, playerBoxAt,
    blockBoxAt, currentGravity, playerHeight, playerWidth, fixedDelta, baseGravity,
    maxGravity, gravityAcceleration, c3World]

/-- Tick 13 of the c3 scenario, evaluated. -/
theorem c3Sim13 : simulate c3World initialPlayer 13 = ⟨0, 417713/21600, 0, 0, -10387/1800, 0, false, 13/60, List.replicate 9 ⟨none, 0⟩, 0⟩ := by
  rw [show (13 : ℕ) = 12 + 1 from rfl, simulate, c3Sim12]
  norm_num [simulate, update, applyGravity, integrate, handleCollisions, clearAirborne,
    resolveBlock, intersects, penX, penY, penZ, jsMin, jsMax, jsAbs, playerBoxAt,
    blockBoxAt, currentGravity, playerHeight, playerWidth, fixedDelta, baseGravity,
    maxGravity, gravityAcceleration, c3World]

/-- Tick 14 of the c3 scenario, evaluated. -/
theorem c3Sim14 : simulate c3World initialPlayer 14 = ⟨0, 207733/10800, 0, 0, -749/120, 0, false, 7/30, List.replicate 9 ⟨none, 0⟩, 0⟩ := by
  rw [show (14 : ℕ) = 13 + 1 from rfl, simulate, c3Sim13]
  norm_num [simulate, update, applyGravity, integrate, handleCollisions, clearAirborne,
    resolveBlock, intersects, penX, penY, penZ, jsMin, jsMax, jsAbs, playerBoxAt,
    blockBoxAt, currentGravity, playerHeight, playerWidth, fixedDelta, baseGravity,
    maxGravity, gravityAcceleration, c3World]

/-- Tick 15 of the c3 scenario, evaluated. -/
theorem c3Sim15 : simulate c3World initialPlayer 15 = ⟨0, 51631/2700, 0, 0, -403/60, 0, false, 1/4, List.replicate 9 ⟨none, 0⟩, 0⟩ := by
  rw [show (15 : ℕ) = 14 + 1 from rfl, simulate, c3Sim14]
  norm_num [simulate, update, applyGravity, integrate, handleCollisions, clearAirborne,
    resolveBlock, intersects, penX, penY, penZ, jsMin, jsMax, jsAbs, playerBoxAt,
    blockBoxAt, currentGravity, playerHeight, playerWidth, fixedDelta, baseGravity,
    maxGravity, gravityAcceleration, c3World]

/-- Tick 16 of the c3 scenario, evaluated. -/
theorem c3Sim16 : simulate c3World initialPlayer 16 = ⟨0, 191/10, 0, 0, 0, 0, true, 4/15, List.replicate 9 ⟨none, 0⟩, 0⟩ := by
  rw [show (16 : ℕ) = 15 + 1 from rfl, simulate, c3Sim15]
  norm_num [simulate, update, applyGravity, integrate, handleCollisions, clearAirborne,
    resolveBlock, intersects, penX, penY, penZ, jsMin, jsMax, jsAbs, playerBoxAt,
    blockBoxAt, currentGravity, playerHeight, playerWidth, fixedDelta, baseGravity,
    maxGravity, gravityAcceleration, c3World]

/-- C1: when the avatar box (the snapshot built before the collision loop)
overlaps a block box with minimum penetration on the y axis and the avatar
center is above the block center, the loop iteration snaps the avatar to rest
on top (py = blockTop + height/2, vy = 0, onGround) exactly when vy is
non-positive and the signed gap to the resting position is below 0.1, leaving
the state untouched otherwise; and the avatar dropped from (0,5,0) onto a
single block at the origin reaches py = 0.5 + height/2 with vy = 0 and
grounded within 40 ticks, a state that is a fixed point of update. -/
theorem c1_vertical_snap_and_landing :
    (∀ (pbox : Box) (b : GridPos) (s : Player) (hb : Option ℚ),
      intersects pbox (blockBoxAt b) →
      penY pbox (blockBoxAt b) ≤ penX pbox (blockBoxAt b) →
      penY pbox (blockBoxAt b) ≤ penZ pbox (blockBoxAt b) →
      s.py > (b.2.1 : ℚ) →
      ((s.vy ≤ 0 ∧ s.py - ((blockBoxAt b).maxY + playerHeight / 2) < 1/10 →
          (resolveBlock pbox b (s, hb)).1.py = (blockBoxAt b).maxY + playerHeight / 2 ∧
          (resolveBlock pbox b (s, hb)).1.vy = 0 ∧
          (resolveBlock pbox b (s, hb)).1.onGround = true) ∧
       (¬ (s.vy ≤ 0 ∧ s.py - ((blockBoxAt b).maxY + playerHeight / 2) < 1/10) →
          resolveBlock pbox b (s, hb) = (s, hb)))) ∧
    ((simulate dropWorld dropStart 40).py = 1/2 + playerHeight / 2 ∧
     (simulate dropWorld dropStart 40).vy = 0 ∧
     (simulate dropWorld dropStart 40).onGround = true ∧
     update dropWorld (simulate dropWorld dropStart 40) = simulate dropWorld dropStart 40) := by
  constructor
  · intro pbox b s hb hI hYX hYZ hAbove
    have hmin : jsMin (penX pbox (blockBoxAt b))
        (jsMin (penY pbox (blockBoxAt b)) (penZ pbox (blockBoxAt b))) =
        penY pbox (blockBoxAt b) := jsMin_eq_mid hYX hYZ
    constructor
    · intro hcond
      unfold resolveBlock
      dsimp only
      rw [if_pos hI, if_pos hmin, if_pos hAbove, if_pos hcond]
      exact ⟨rfl, rfl, rfl⟩
    · intro hcond
      unfold resolveBlock
      dsimp only
      rw [if_pos hI, if_pos hmin, if_pos hAbove, if_neg hcond]
  · have hfix : update dropWorld dropRest = dropRest := by
      norm_num [update, applyGravity, integrate, handleCollisions, clearAirborne,
        resolveBlock, intersects, penX, penY, penZ, jsMin, jsMax, jsAbs, playerBoxAt,
        blockBoxAt, currentGravity, playerHeight, playerWidth, fixedDelta, baseGravity,
        maxGravity, gravityAcceleration, dropWorld, dropRest]
    have hsucc : ∀ k : ℕ, simulate dropWorld dropStart (33 + k) = dropRest := by
      intro k
      induction k with
      | zero => exact dropSim33
      | succ k ih =>
          rw [show 33 + (k + 1) = (33 + k) + 1 from rfl, simulate, ih, hfix]
    have h40 : simulate dropWorld dropStart 40 = dropRest := by
      rw [show (40 : ℕ) = 33 + 7 from rfl]
      exact hsucc 7
    refine ⟨?_, ?_, ?_, ?_⟩
    · rw [h40]
      norm_num [dropRest, playerHeight]
    · rw [h40]
      norm_num [dropRest]
    · rw [h40]
      norm_num [dropRest]
    · rw [h40, hfix]

/-- C1 witness: the snap rule instantiated for an avatar at (0,1,0) falling
with vy = -1 onto the block at the origin. -/
theorem c1_witness :
    (resolveBlock (playerBoxAt 0 1 0) (0, 0, 0)
        ({ initialPlayer with py := 1, vy := -1 }, none)).1.py = 11/10 ∧
    (resolveBlock (playerBoxAt 0 1 0) (0, 0, 0)
        ({ initialPlayer with py := 1, vy := -1 }, none)).1.vy = 0 ∧
    (resolveBlock (playerBoxAt 0 1 0) (0, 0, 0)
        ({ initialPlayer with py := 1, vy := -1 }, none)).1.onGround = true := by
  have h := (c1_vertical_snap_and_landing.1 (playerBoxAt 0 1 0) (0, 0, 0)
      { initialPlayer with py := 1, vy := -1 } none
      (by norm_num [intersects, playerBoxAt, blockBoxAt, playerWidth, playerHeight])
      (by norm_num [penX, penY, penZ, jsMin, jsAbs, playerBoxAt, blockBoxAt,
        playerWidth, playerHeight])
      (by norm_num [penY, penZ, jsMin, jsAbs, playerBoxAt, blockBoxAt,
        playerWidth, playerHeight])
      (by norm_num)).1
      ⟨by norm_num, by norm_num [blockBoxAt, playerHeight]⟩
  refine ⟨?_, h.2.1, h.2.2⟩
  rw [h.1]
  norm_num [blockBoxAt, playerHeight]

/-- C3 counterexample: dropping the avatar from its constructor state
(0,20,0) onto a block at (0,18,0), tick 16 is the landing tick, and there the
state has onGround true while fallTime is 16/60 = 4/15, not 0: the reset only
happens on the following tick. -/
theorem c3_counterexample :
    (simulate c3World initialPlayer 16).onGround = true ∧
    (simulate c3World initialPlayer 16).fallTime ≠ 0 := by
  rw [c3Sim16]
  norm_num

/-- C3 amended: updating any grounded state yields fallTime 0 (the reset
happens on the tick after grounded becomes true, not on the landing tick
itself), and updating any airborne state increments fallTime by exactly the
fixed timestep, so fallTime never decreases across consecutive airborne
ticks. -/
theorem c3_fallTime_reset (world : List WBlock) (s : Player) :
    (s.onGround = true → (update world s).fallTime = 0) ∧
    (s.onGround = false →
      (update world s).fallTime = s.fallTime + fixedDelta ∧
      s.fallTime ≤ (update world s).fallTime) := by
  have hint : ∀ s1 : Player, (integrate s1).fallTime = s1.fallTime := fun _ => rfl
  constructor
  · intro h
    unfold update
    rw [handleCollisions_fallTime, hint]
    simp [applyGravity, h]
  · intro h
    unfold update
    rw [handleCollisions_fallTime, hint]
    have hval : (applyGravity s).fallTime = s.fallTime + fixedDelta := by
      simp [applyGravity, h]
    refine ⟨hval, ?_⟩
    rw [hval]
    have hd : (0 : ℚ) ≤ fixedDelta := by norm_num [fixedDelta]
    linarith

/-- C3 amended witness: the airborne increment instantiated at the initial
avatar state over the single-block world. -/
theorem c3_witness :
    (update c3World initialPlayer).fallTime = initialPlayer.fallTime + fixedDelta :=
  ((c3_fallTime_reset c3World initialPlayer).2 rfl).1

/-- Membership in one terrain column. -/
theorem mem_columnBlocks {x z e a b c : ℤ} {t : BlockType} :
    (((a, b, c), t) ∈ columnBlocks x z e) ↔
      (a = x ∧ c = z ∧ 0 ≤ b ∧ b ≤ e ∧ t = groundMaterial b e) := by
  unfold columnBlocks
  simp only [List.mem_map, List.mem_range]
  constructor
  · rintro ⟨y, hy, heq⟩
    simp only [Prod.mk.injEq] at heq
    obtain ⟨⟨hx, hb, hz⟩, ht⟩ := heq
    refine ⟨hx.symm, hz.symm, by omega, by omega, ?_⟩
    rw [← ht, ← hb]
  · rintro ⟨ha, hc, h0, he, ht⟩
    refine ⟨b.toNat, by omega, ?_⟩
    simp only [Prod.mk.injEq]
    have hcast : (b.toNat : ℤ) = b := by omega
    exact ⟨⟨ha.symm, hcast, hc.symm⟩, by rw [hcast, ht]⟩

/-- C4: the ground pass of terrain generation places, for every column (x,z)
of the 48-wide square centered at the origin, exactly the blocks with y from 0
to the noise-derived elevation, typed grass at the surface, dirt in the two
layers below it, stone at and below elevation minus 3. -/
theorem c4_terrain_ground (noise : ℚ → ℚ → ℚ) (a b c : ℤ) (t : BlockType) :
    (((a, b, c), t) ∈ generateTerrainGround noise) ↔
      (-24 ≤ a ∧ a < 24 ∧ -24 ≤ c ∧ c < 24 ∧ 0 ≤ b ∧ b ≤ elevationAt noise a c ∧
       t = groundMaterial b (elevationAt noise a c)) := by
  unfold generateTerrainGround
  simp only [List.mem_flatMap, List.mem_range]
  constructor
  · rintro ⟨i, hi, j, hj, hmem⟩
    rw [mem_columnBlocks] at hmem
    obtain ⟨ha, hc, h0, he, ht⟩ := hmem
    subst ha
    subst hc
    exact ⟨by omega, by omega, by omega, by omega, h0, he, ht⟩
  · rintro ⟨h1, h2, h3, h4, h5, h6, h7⟩
    refine ⟨(a + 24).toNat, by omega, (c + 24).toNat, by omega, ?_⟩
    rw [mem_columnBlocks]
    have hA : ((a + 24).toNat : ℤ) - 24 = a := by omega
    have hC : ((c + 24).toNat : ℤ) - 24 = c := by omega
    rw [hA, hC]
    exact ⟨rfl, rfl, h5, h6, h7⟩

/-- Membership in the leaf offset list. -/
theorem mem_leafOffsets {lx ly lz : ℤ} :
    ((lx, ly, lz) ∈ leafOffsets) ↔
      (-2 ≤ lx ∧ lx ≤ 2 ∧ -1 ≤ ly ∧ ly ≤ 2 ∧ -2 ≤ lz ∧ lz ≤ 2 ∧
       ¬ (lx.natAbs = 2 ∧ lz.natAbs = 2)) := by
  unfold leafOffsets
  simp only [List.mem_flatMap, List.mem_filterMap, List.mem_range]
  constructor
  · rintro ⟨a, ha, b, hb, c, hc, heq⟩
    by_cases hcorner : ((a : ℤ) - 2).natAbs = 2 ∧ ((c : ℤ) - 2).natAbs = 2
    · rw [if_pos hcorner] at heq
      exact absurd heq (by simp)
    · rw [if_neg hcorner] at heq
      injection heq with h1
      simp only [Prod.mk.injEq] at h1
      obtain ⟨ha2, hb2, hc2⟩ := h1
      subst ha2
      subst hb2
      subst hc2
      exact ⟨by omega, by omega, by omega, by omega, by omega, by omega, hcorner⟩
  · rintro ⟨h1, h2, h3, h4, h5, h6, hcorner⟩
    refine ⟨(lx + 2).toNat, by omega, (ly + 1).toNat, by omega, (lz + 2).toNat, by omega, ?_⟩
    have hX : ((lx + 2).toNat : ℤ) - 2 = lx := by omega
    have hY : ((ly + 1).toNat : ℤ) - 1 = ly := by omega
    have hZ : ((lz + 2).toNat : ℤ) - 2 = lz := by omega
    rw [hX, hY, hZ, if_neg hcorner]

/-- C5: a generated tree of trunk height h (drawn as 4 plus a uniform integer
in 0..2) has exactly h wood blocks, namely the cells directly above the root,
its leaves fill the box lx,lz in [-2,2], ly in [-1,2] around y+h minus the
four corner columns, and no leaf block sits on any corner column (+-2, y, +-2). -/
theorem c5_tree_shape (x y z : ℤ) (h : ℕ) (h4 : 4 ≤ h) (h6 : h ≤ 6) :
    (generateTree x y z h).countP (fun e => decide (e.2 = BlockType.wood)) = h ∧
    (∀ a b c : ℤ, (((a, b, c), BlockType.wood) ∈ generateTree x y z h) ↔
       (a = x ∧ c = z ∧ y ≤ b ∧ b < y + h)) ∧
    (∀ a b c : ℤ, (((a, b, c), BlockType.leaves) ∈ generateTree x y z h) ↔
       (∃ lx ly lz : ℤ, -2 ≤ lx ∧ lx ≤ 2 ∧ -1 ≤ ly ∧ ly ≤ 2 ∧ -2 ≤ lz ∧ lz ≤ 2 ∧
         ¬ (lx.natAbs = 2 ∧ lz.natAbs = 2) ∧
         a = x + lx ∧ b = y + h + ly ∧ c = z + lz)) ∧
    (∀ (b sx sz : ℤ), (sx = 2 ∨ sx = -2) → (sz = 2 ∨ sz = -2) →
       ((x + sx, b, z + sz), BlockType.leaves) ∉ generateTree x y z h) := by
  refine ⟨?_, ?_, ?_, ?_⟩
  · unfold generateTree
    rw [List.countP_append]
    have htrunk : ∀ l : List ℕ,
        (l.map fun (i : ℕ) => (((x, y + (i : ℤ), z) : GridPos), BlockType.wood)).countP
          (fun e => decide (e.2 = BlockType.wood)) = l.length := by
      intro l
      induction l with
      | nil => rfl
      | cons a l ih => simp [List.countP_cons, ih]
    have hleaf : ∀ l : List (ℤ × ℤ × ℤ),
        (l.map fun o =>
          (((x + o.1, y + (h : ℤ) + o.2.1, z + o.2.2) : GridPos), BlockType.leaves)).countP
          (fun e => decide (e.2 = BlockType.wood)) = 0 := by
      intro l
      induction l with
      | nil => rfl
      | cons a l ih => simp [List.countP_cons, ih]
    rw [htrunk, hleaf, List.length_range]
    omega
  · intro a b c
    unfold generateTree
    simp only [List.mem_append, List.mem_map, List.mem_range, Prod.mk.injEq]
    constructor
    · rintro (⟨i, hi, ⟨hx, hb, hz⟩, _⟩ | ⟨o, _, _, habs⟩)
      · exact ⟨hx.symm, hz.symm, by omega, by omega⟩
      · cases habs
    · rintro ⟨ha, hc, hy, hyh⟩
      left
      exact ⟨(b - y).toNat, by omega, ⟨ha.symm, by omega, hc.symm⟩, trivial⟩
  · intro a b c
    unfold generateTree
    simp only [List.mem_append, List.mem_map, List.mem_range, Prod.mk.injEq]
    constructor
    · rintro (⟨i, hi, _, habs⟩ | ⟨⟨lx, ly, lz⟩, ho, ⟨hx, hb, hz⟩, _⟩)
      · cases habs
      · rw [mem_leafOffsets] at ho
        have hx2 : x + lx = a := hx
        have hb2 : y + (h : ℤ) + ly = b := hb
        have hz2 : z + lz = c := hz
        exact ⟨lx, ly, lz, ho.1, ho.2.1, ho.2.2.1, ho.2.2.2.1, ho.2.2.2.2.1,
          ho.2.2.2.2.2.1, ho.2.2.2.2.2.2, hx2.symm, hb2.symm, hz2.symm⟩
    · rintro ⟨lx, ly, lz, h1, h2, h3, h4l, h5, h6l, hcorner, ha, hb, hc⟩
      right
      refine ⟨(lx, ly, lz), ?_, ⟨ha.symm, hb.symm, hc.symm⟩, trivial⟩
      rw [mem_leafOffsets]
      exact ⟨h1, h2, h3, h4l, h5, h6l, hcorner⟩
  · intro b sx sz hsx hsz hmem
    unfold generateTree at hmem
    simp only [List.mem_append, List.mem_map, List.mem_range, Prod.mk.injEq] at hmem
    rcases hmem with ⟨i, hi, _, habs⟩ | ⟨⟨lx, ly, lz⟩, ho, ⟨hx, hb, hz⟩, _⟩
    · cases habs
    · rw [mem_leafOffsets] at ho
      have hx2 : x + lx = x + sx := hx
      have hz2 : z + lz = z + sz := hz
      apply ho.2.2.2.2.2.2
      constructor <;> omega

/-- C5 witness: at the origin with trunk height 5, the wood count is 5 and the
corner column (2, y, 2) holds no leaf block at layer y = 9. -/
theorem c5_witness :
    (generateTree 0 0 0 5).countP (fun e => decide (e.2 = BlockType.wood)) = 5 ∧
    (((2 : ℤ), (9 : ℤ), (2 : ℤ)), BlockType.leaves) ∉ generateTree 0 0 0 5 := by
  refine ⟨(c5_tree_shape 0 0 0 5 (by norm_num) (by norm_num)).1, ?_⟩
  have h := (c5_tree_shape 0 0 0 5 (by norm_num) (by norm_num)).2.2.2 9 2 2
    (Or.inl rfl) (Or.inl rfl)
  simpa using h

/-- The spawn fold never drops below its initial value. -/
theorem spawnFold_init_le (world : List WBlock) (i : ℤ) :
    i ≤ world.foldl spawnStep i := by
  induction world generalizing i with
  | nil => exact le_refl i
  | cons b l ih =>
      rw [List.foldl_cons]
      refine le_trans ?_ (ih (spawnStep i b))
      unfold spawnStep
      split_ifs
      · exact le_max_left _ _
      · exact le_refl i

/-- Every column-(0,0) block bounds the spawn fold from below. -/
theorem spawnFold_mem_le (p : GridPos) (t : BlockType) (h0 : p.1 = 0) (h2 : p.2.2 = 0) :
    ∀ (world : List WBlock) (i : ℤ), (p, t) ∈ world → p.2.1 ≤ world.foldl spawnStep i := by
  intro world
  induction world with
  | nil => intro i hmem; cases hmem
  | cons b l ih =>
      intro i hmem
      rw [List.foldl_cons]
      rcases List.mem_cons.mp hmem with heq | hmem2
      · refine le_trans ?_ (spawnFold_init_le l (spawnStep i b))
        unfold spawnStep
        rw [← heq]
        rw [if_pos ⟨h0, h2⟩]
        exact le_max_right _ _
      · exact ih (spawnStep i b) hmem2

/-- The spawn fold is the initial value or the y of some column-(0,0) block. -/
theorem spawnFold_cases (world : List WBlock) :
    ∀ i : ℤ, world.foldl spawnStep i = i ∨
      ∃ (p : GridPos) (t : BlockType), (p, t) ∈ world ∧ p.1 = 0 ∧ p.2.2 = 0 ∧
        world.foldl spawnStep i = p.2.1 := by
  induction world with
  | nil => intro i; left; rfl
  | cons b l ih =>
      intro i
      rw [List.foldl_cons]
      rcases ih (spawnStep i b) with h | ⟨p, t, hmem, h0, h2, heq⟩
      · by_cases hc : b.1.1 = 0 ∧ b.1.2.2 = 0
        · rcases max_choice i b.1.2.1 with hm | hm
          · left
            rw [h]
            unfold spawnStep
            rw [if_pos hc, hm]
          · right
            refine ⟨b.1, b.2, List.mem_cons_self b l, hc.1, hc.2, ?_⟩
            rw [h]
            unfold spawnStep
            rw [if_pos hc, hm]
        · left
          rw [h]
          unfold spawnStep
          rw [if_neg hc]
      · right
        exact ⟨p, t, List.mem_cons_of_mem b hmem, h0, h2, heq⟩

/-- C6 amended: findSafeSpawnPosition returns x = z = 0 and
y = max(0, highest column-(0,0) block y) + 2: the result is at least 2, sits
at least 2 above every column-(0,0) block, and equals 2 (the floor from the
0 initialization) unless some column-(0,0) block attains it exactly; for a
column whose blocks all have negative y the code still returns 2, so the
returned y exceeds the highest block by exactly 2 only when the column is
empty or its highest block has y at least 0. -/
theorem c6_spawn_amended (world : List WBlock) :
    (findSafeSpawnPosition world).1 = 0 ∧
    (findSafeSpawnPosition world).2.2 = 0 ∧
    2 ≤ (findSafeSpawnPosition world).2.1 ∧
    (∀ (p : GridPos) (t : BlockType), (p, t) ∈ world → p.1 = 0 → p.2.2 = 0 →
      p.2.1 + 2 ≤ (findSafeSpawnPosition world).2.1) ∧
    ((findSafeSpawnPosition world).2.1 = 2 ∨
     ∃ (p : GridPos) (t : BlockType), (p, t) ∈ world ∧ p.1 = 0 ∧ p.2.2 = 0 ∧
       (findSafeSpawnPosition world).2.1 = p.2.1 + 2) := by
  refine ⟨rfl, rfl, ?_, ?_, ?_⟩
  · have h := spawnFold_init_le world 0
    show 2 ≤ world.foldl spawnStep 0 + 2
    omega
  · intro p t hmem h0 h2
    have h := spawnFold_mem_le p t h0 h2 world 0 hmem
    show p.2.1 + 2 ≤ world.foldl spawnStep 0 + 2
    omega
  · rcases spawnFold_cases world 0 with h | ⟨p, t, hmem, h0, h2, heq⟩
    · left
      show world.foldl spawnStep 0 + 2 = 2
      omega
    · right
      refine ⟨p, t, hmem, h0, h2, ?_⟩
      show world.foldl spawnStep 0 + 2 = p.2.1 + 2
      omega

/-- C6 amended witness: with a single block at (0,3,0) the spawn y is at least
block y plus 2. -/
theorem c6_witness :
    (((0 : ℤ), (3 : ℤ), (0 : ℤ)) : GridPos).2.1 + 2 ≤
      (findSafeSpawnPosition [(((0 : ℤ), 3, 0), BlockType.grass)]).2.1 :=
  (c6_spawn_amended [(((0 : ℤ), 3, 0), BlockType.grass)]).2.2.2.1
    ((0 : ℤ), 3, 0) BlockType.grass (by decide) rfl rfl

/-- C7: block placement succeeds, appending exactly the candidate block with
the selected type and decrementing the selected slot, precisely when the cell
is within reach 5, its unit box misses the avatar box, and the selected slot
is non-empty; whenever any of the three constraints fails, the world and the
whole player state are returned unchanged. -/
theorem c7_placement_guards (c : GridPos) (world : List WBlock) (s : Player) :
    (∀ t : BlockType, distSqFromCell c s.px s.py s.pz ≤ 25 →
      ¬ intersects (blockBoxAt c) (playerBoxAt s.px s.py s.pz) →
      getSelectedBlockType s.inventory s.selectedSlot = some t →
      handleBlockPlacement c world s =
        (world ++ [(c, t)],
         { s with inventory := removeFromInventory s.inventory s.selectedSlot })) ∧
    (¬ (distSqFromCell c s.px s.py s.pz ≤ 25 ∧
        ¬ intersects (blockBoxAt c) (playerBoxAt s.px s.py s.pz) ∧
        (getSelectedBlockType s.inventory s.selectedSlot).isSome = true) →
      handleBlockPlacement c world s = (world, s)) := by
  constructor
  · intro t hd hi hsel
    unfold handleBlockPlacement
    rw [if_pos hd, if_pos hi, hsel]
    rfl
  · intro hne
    unfold handleBlockPlacement
    by_cases hd : distSqFromCell c s.px s.py s.pz ≤ 25
    · rw [if_pos hd]
      by_cases hi : ¬ intersects (blockBoxAt c) (playerBoxAt s.px s.py s.pz)
      · rw [if_pos hi]
        have hsel : getSelectedBlockType s.inventory s.selectedSlot = none := by
          rcases hopt : getSelectedBlockType s.inventory s.selectedSlot with _ | t
          · rfl
          · exact absurd ⟨hd, hi, by rw [hopt]; rfl⟩ hne
        rw [hsel]
      · rw [if_neg hi]
    · rw [if_neg hd]

/-- C7 witness: a successful placement at cell (0,0,3) from (0,2,0) with stone
selected, instantiating the success branch. -/
theorem c7_witness :
    handleBlockPlacement (0, 0, 3) [] c7Player =
      ([(((0, 0, 3) : GridPos), BlockType.stone)],
       { c7Player with
           inventory := removeFromInventory c7Player.inventory c7Player.selectedSlot }) := by
  have h := (c7_placement_guards (0, 0, 3) [] c7Player).1 BlockType.stone
    (by norm_num [distSqFromCell, c7Player, initialPlayer])
    (by norm_num [intersects, blockBoxAt, playerBoxAt, playerWidth, playerHeight,
      c7Player, initialPlayer])
    rfl
  simpa using h

/-- JS findIndex never hits when the predicate is false on every element. -/
theorem findIndexFrom_eq_neg_one {p : Slot → Bool} {l : List Slot}
    (h : ∀ s ∈ l, p s = false) : ∀ k : ℤ, findIndexFrom p l k = -1 := by
  induction l with
  | nil => intro k; rfl
  | cons a l ih =>
      intro k
      unfold findIndexFrom
      rw [if_neg]
      · exact ih (fun s hs => h s (List.mem_cons_of_mem a hs)) (k + 1)
      · simp [h a (List.mem_cons_self a l)]

/-- JS findIndex returns the first index satisfying the predicate. -/
theorem findIndexFrom_eq_index {p : Slot → Bool} :
    ∀ (l : List Slot) (i : ℕ) (hi : i < l.length),
      p (l.get ⟨i, hi⟩) = true →
      (∀ (j : ℕ) (hj : j < l.length), j < i → p (l.get ⟨j, hj⟩) = false) →
      ∀ k : ℤ, findIndexFrom p l k = k + i := by
  intro l
  induction l with
  | nil => intro i hi; exact absurd hi (by simp)
  | cons a l ih =>
      intro i hi hp hmin k
      unfold findIndexFrom
      cases i with
      | zero =>
          have hpa : p a = true := hp
          rw [if_pos hpa]
          simp
      | succ n =>
          have ha : p a = false := hmin 0 (by simp) (Nat.succ_pos n)
          rw [if_neg (by simp [ha])]
          have hrec := ih n (by simpa using hi) hp
            (fun j hj hlt => hmin (j + 1) (by simpa using hj) (by omega)) (k + 1)
          rw [hrec]
          push_cast
          ring

/-- C9 counterexample: with all nine slots holding stone and slot 0 selected,
picking up grass increments the stone count in slot 0; the selected slot type
does not become the picked-up type. -/
theorem c9_counterexample :
    (addToInventory fullStoneInv 0 BlockType.grass)[0]? =
      some ⟨some BlockType.stone, 2⟩ ∧
    getSelectedBlockType (addToInventory fullStoneInv 0 BlockType.grass) 0 ≠
      some BlockType.grass := by
  decide

/-- C9 amended: when every slot is non-empty and none matches the picked-up
type, addToInventory falls back to the selected slot and increments its count,
keeping its existing unrelated type (the pickup is not stored; the slot is not
overwritten with the new type); when some slot matches the type or is empty,
the first such slot is initialized to (type, 1) if empty, else incremented. -/
theorem c9_addToInventory_fallback (inv : List Slot) (sel : ℕ) (t : BlockType)
    (hsel : sel < inv.length) :
    ((∀ s ∈ inv, s.ty ≠ some t ∧ s.ty ≠ none) →
      addToInventory inv sel t =
        inv.set sel ⟨(inv.get ⟨sel, hsel⟩).ty, (inv.get ⟨sel, hsel⟩).count + 1⟩ ∧
      (inv.get ⟨sel, hsel⟩).ty ≠ some t ∧ (inv.get ⟨sel, hsel⟩).ty ≠ none) ∧
    (∀ (i : ℕ) (hi : i < inv.length),
      slotMatches t (inv.get ⟨i, hi⟩) = true →
      (∀ (j : ℕ) (hj : j < inv.length), j < i → slotMatches t (inv.get ⟨j, hj⟩) = false) →
      addToInventory inv sel t =
        (if (inv.get ⟨i, hi⟩).ty = none then inv.set i ⟨some t, 1⟩
         else inv.set i ⟨(inv.get ⟨i, hi⟩).ty, (inv.get ⟨i, hi⟩).count + 1⟩)) := by
  constructor
  · intro hall
    have hfalse : ∀ s ∈ inv, slotMatches t s = false := by
      intro s hs
      have h := hall s hs
      unfold slotMatches
      simp [h.1, h.2]
    have hidx : findIndex (slotMatches t) inv = -1 :=
      findIndexFrom_eq_neg_one hfalse 0
    have hslot : jsSlotIndex inv sel t = sel := by
      unfold jsSlotIndex
      rw [hidx, if_pos rfl]
    have hget := hall (inv.get ⟨sel, hsel⟩) (List.get_mem inv sel hsel)
    refine ⟨?_, hget.1, hget.2⟩
    unfold addToInventory
    rw [hslot, List.getElem?_eq_getElem hsel]
    have hne : (inv[sel]).ty ≠ none := hget.2
    show (if (inv[sel]).ty = none then inv.set sel ⟨some t, 1⟩
          else inv.set sel ⟨(inv[sel]).ty, (inv[sel]).count + 1⟩) =
        inv.set sel ⟨(inv.get ⟨sel, hsel⟩).ty, (inv.get ⟨sel, hsel⟩).count + 1⟩
    rw [if_neg hne]
    rfl
  · intro i hi hp hmin
    have hidx : findIndex (slotMatches t) inv = (0 : ℤ) + i :=
      findIndexFrom_eq_index inv i hi hp hmin 0
    have hne : ¬ ((0 : ℤ) + i = -1) := by omega
    have hslot : jsSlotIndex inv sel t = i := by
      unfold jsSlotIndex
      rw [hidx, if_neg hne]
      omega
    unfold addToInventory
    rw [hslot, List.getElem?_eq_getElem hi]
    rfl

/-- C9 amended witness: the fallback conclusion instantiated at the all-stone
inventory with slot 0 selected and a grass pickup. -/
theorem c9_witness :
    addToInventory fullStoneInv 0 BlockType.grass =
      fullStoneInv.set 0 ⟨some BlockType.stone, 2⟩ := by
  have h := ((c9_addToInventory_fallback fullStoneInv 0 BlockType.grass (by decide)).1
    (by decide)).1
  exact h
